import Mathlib

/-!
# A shallow embedding of `scripts/validate-pr.py`

The script validates genesis-ceremony registration files (accounts,
validators, bonds).  We embed its pure validation core:

* TOML record files become the structure `TomlDoc`; field presence is
  modelled with `Option`, mirroring the script's `field not in dict`
  checks.  Keys the script never reads are not represented.
* Python `float(v)` applied to a TOML value is modelled by recording the
  outcome of the conversion (`PyNum := Option ℚ`): `some q` when the
  conversion returns the number `q`, `none` when it raises.
* `bech32m.bech32_decode` is an external library; the validators only
  compare its first component (the human readable part) against a
  literal, so we abstract it as a parameter
  `bech32_decode : String → Option String` returning the HRP on success
  and `none` on failure (the library returns `(None, None, None)` then,
  and `None == "tnam"` is false).
* Check functions that can raise an uncaught Python exception
  (`TypeError` on subscripting `None`, `KeyError` on a missing top-level
  key, `ValueError` from `float`) return `Option Bool`, with `none`
  standing for the escaped exception.
* `validate_toml` additionally returns the list of observable events it
  produces: the read of `genesis/balances.toml` and each printed line.
-/

/-- Outcome of Python `float(v)` on a TOML value: `some q` when the
conversion returns `q`, `none` when it raises. -/
abbrev PyNum := Option ℚ

/-- One entry of the `established_account` array.  Fields are `Option` to
model presence of the TOML keys checked at line 53; values carry the types
the script relies on (the threshold is compared as an integer, the public
keys are a list of strings). -/
structure AccountEntry where
  vp : Option String
  threshold : Option Int
  public_keys : Option (List String)
deriving DecidableEq

/-- A key slot such as `consensus_key`; the script only checks that the
two sub-keys are present (line 90-93), so presence is a `Bool`. -/
structure KeySlot where
  pk : Bool
  authorization : Bool
deriving DecidableEq

/-- The `metadata` table; only the `email` sub-key is read. -/
structure MetadataTable where
  email : Option String
deriving DecidableEq

/-- One entry of the `validator_account` array (field list of line 86). -/
structure ValidatorEntry where
  consensus_key : Option KeySlot
  protocol_key : Option KeySlot
  tendermint_node_key : Option KeySlot
  eth_hot_key : Option KeySlot
  eth_cold_key : Option KeySlot
  metadata : Option MetadataTable
  signatures : Option (List String)
  address : Option String
  vp : Option String
  commission_rate : Option PyNum
  max_commission_rate_change : Option PyNum
deriving DecidableEq

/-- One entry of the `bond` array (field list of line 132). -/
structure BondEntry where
  source : Option String
  validator : Option String
  amount : Option PyNum
  signatures : Option (List String)
deriving DecidableEq

/-- A parsed record file: the three top-level keys the script reads. -/
structure TomlDoc where
  established_account : Option (List AccountEntry)
  validator_account : Option (List ValidatorEntry)
  bond : Option (List BondEntry)
deriving DecidableEq

/-- Python `\S` (a non-whitespace character), over the ASCII whitespace
class used by `re`. -/
def isNonWS (c : Char) : Bool :=
  !(c == ' ' || c == '\t' || c == '\n' || c == '\r' || c == '\x0b' || c == '\x0c')

/-- All ways to split a character list around one occurrence of `c`. -/
def splitsOnChar (c : Char) : List Char → List (List Char × List Char)
  | [] => []
  | a :: as =>
    let rest := (splitsOnChar c as).map (fun p => (a :: p.1, p.2))
    if a == c then ([], as) :: rest else rest

/-- `re.search(EMAIL_PATTERN, s)` with the anchored pattern of line 9:
the whole string decomposes into nonempty runs of non-whitespace around a
literal at-sign and a later literal dot.  (The `$` of `re` would also
tolerate one trailing newline; record strings here carry none.) -/
def emailMatch (s : String) : Bool :=
  (splitsOnChar '@' s.data).any fun p =>
    !p.1.isEmpty && p.1.all isNonWS &&
      (splitsOnChar '.' p.2).any fun q =>
        !q.1.isEmpty && q.1.all isNonWS && !q.2.isEmpty && q.2.all isNonWS

/-- The per-record validation loop: stop at the first failing entry,
propagate a raised exception (`none`). -/
def allEntries {α : Type} (f : α → Option Bool) : List α → Option Bool
  | [] => some true
  | x :: xs =>
    match f x with
    | none => none
    | some false => some false
    | some true => allEntries f xs

/-- Body of the loop of `check_if_account_is_valid` (lines 52-73). -/
def check_account_entry (bech32_decode : String → Option String)
    (account : AccountEntry) : Bool :=
  match account.vp, account.threshold, account.public_keys with
  | some vp, some threshold, some public_keys =>
    if vp ≠ "vp_user" then false
    else if (public_keys.length : Int) < threshold then false
    else if threshold ≤ 0 then false
    else public_keys.all fun public_key => bech32_decode public_key == some "tnam"
  | _, _, _ => false

/-- `check_if_account_is_valid` (lines 51-75); `none` models the uncaught
exception when the argument is `None` (`TypeError`) or has no
`established_account` key (`KeyError`). -/
def check_if_account_is_valid (bech32_decode : String → Option String) :
    Option TomlDoc → Option Bool
  | none => none
  | some accounts_toml =>
    match accounts_toml.established_account with
    | none => none
    | some accounts => some (accounts.all (check_account_entry bech32_decode))

/-- Body of the loop of `check_if_validator_is_valid` (lines 85-125);
`none` models the `ValueError` escaping from `float` at lines 104-105. -/
def check_validator_entry (bech32_decode : String → Option String)
    (validator : ValidatorEntry) : Option Bool :=
  match validator.consensus_key, validator.protocol_key,
      validator.tendermint_node_key, validator.eth_hot_key,
      validator.eth_cold_key with
  | some ck, some prk, some tnk, some ehk, some eck =>
    match validator.metadata, validator.signatures, validator.address,
        validator.vp, validator.commission_rate,
        validator.max_commission_rate_change with
    | some md, some signatures, some address, some vp, some cr, some mcrc =>
      if !(ck.pk && ck.authorization && prk.pk && prk.authorization
          && tnk.pk && tnk.authorization && ehk.pk && ehk.authorization
          && eck.pk && eck.authorization) then some false
      else
        match md.email with
        | none => some false
        | some email =>
          if signatures.length ≤ 0 then some false
          else
            match cr, mcrc with
            | some commission_rate, some max_commission_rate_change =>
              if vp ≠ "vp_user" then some false
              else if ¬(0 ≤ commission_rate ∧ commission_rate ≤ 1) then some false
              else if ¬(0 ≤ max_commission_rate_change ∧ max_commission_rate_change ≤ 1) then some false
              else if !emailMatch email then some false
              else if bech32_decode address ≠ some "tnam" then some false
              else some true
            | _, _ => none
    | _, _, _, _, _, _ => some false
  | _, _, _, _, _ => some false

/-- `check_if_validator_is_valid` (lines 77-127). -/
def check_if_validator_is_valid (bech32_decode : String → Option String) :
    Option TomlDoc → Option Bool
  | none => none
  | some validators_toml =>
    match check_if_account_is_valid bech32_decode (some validators_toml) with
    | none => none
    | some is_valid =>
      if !is_valid then some false
      else if validators_toml.bond.isSome then some false
      else
        match validators_toml.validator_account with
        | none => none
        | some validators => allEntries (check_validator_entry bech32_decode) validators

/-- Line 143: `float(balances[source]) if source in balances else 0`.  The
balances table maps addresses to the `float` outcome of their recorded
balance string. -/
def bondBalance (balances : List (String × PyNum)) (source : String) : PyNum :=
  match balances.lookup source with
  | some v => v
  | none => some 0

/-- Body of the loop of `check_if_bond_is_valid` (lines 131-154); `none`
models the `ValueError` escaping from `float` at lines 141 and 143. -/
def check_bond_entry (bech32_decode : String → Option String)
    (balances : List (String × PyNum)) (bond : BondEntry) : Option Bool :=
  match bond.source, bond.validator, bond.amount, bond.signatures with
  | some source, some validator, some amount_v, some signatures =>
    if signatures.length ≤ 0 then some false
    else
      match amount_v with
      | none => none
      | some amount =>
        match bondBalance balances source with
        | none => none
        | some balance =>
          if balance = 0 ∨ ¬balance ≥ amount then some false
          else if bech32_decode source ≠ some "tkpnam" then some false
          else if bech32_decode validator ≠ some "tnam" then some false
          else some true
  | _, _, _, _ => some false

/-- `check_if_bond_is_valid` (lines 130-156). -/
def check_if_bond_is_valid (bech32_decode : String → Option String)
    (bonds_toml : Option TomlDoc) (balances : List (String × PyNum)) :
    Option Bool :=
  match bonds_toml with
  | none => none
  | some doc =>
    match doc.bond with
    | none => none
    | some bonds => allEntries (check_bond_entry bech32_decode balances) bonds

/-- `cs` begins with `pat`. -/
def beginsWith : List Char → List Char → Bool
  | _, [] => true
  | [], _ :: _ => false
  | a :: as, b :: bs => a == b && beginsWith as bs

/-- `pat` occurs as a contiguous substring of `s`. -/
def containsSub : List Char → List Char → Bool
  | [], pat => pat.isEmpty
  | s@(_ :: rest), pat => beginsWith s pat || containsSub rest pat

/-- Python `pat in s` on strings. -/
def strContains (s pat : String) : Bool := containsSub s.data pat.data

/-- Observable events of one `validate_toml` call: the read of
`genesis/balances.toml` (line 160) and each printed line. -/
inductive Event where
  | loadBalances
  | printLine (s : String)
deriving DecidableEq

/-- `validate_toml` (lines 159-187).  The parse results of candidate
files are supplied through `parse` (the outcome of `read_unsafe_toml`,
`none` on malformed TOML), and the `NAM` table of the balances file
through `nam_balances`.  Returns the emitted events and `some ()` on
normal return, `none` when an exception escapes the call. -/
def validate_toml (bech32_decode : String → Option String)
    (nam_balances : List (String × PyNum)) (parse : String → Option TomlDoc)
    (file : String)
    (can_apply_for_validators can_apply_for_bonds can_apply_for_accounts : Bool) :
    List Event × Option Unit :=
  let ld := [Event.loadBalances]
  if strContains file "-account.toml" && can_apply_for_accounts then
    let accounts_toml := parse file
    let ev1 := if accounts_toml.isNone
      then [Event.printLine (file ++ " is NOT valid.")] else []
    match check_if_account_is_valid bech32_decode accounts_toml with
    | none => (ld ++ ev1, none)
    | some is_valid =>
      let ev2 := if !is_valid
        then [Event.printLine (file ++ " is NOT valid.")] else []
      (ld ++ ev1 ++ ev2 ++ [Event.printLine (file ++ " is valid.")], some ())
  else if strContains file "-validator.toml" && can_apply_for_validators then
    let validators_toml := parse file
    let ev1 := if validators_toml.isNone
      then [Event.printLine (file ++ " is NOT valid.")] else []
    match check_if_validator_is_valid bech32_decode validators_toml with
    | none => (ld ++ ev1, none)
    | some is_valid =>
      let ev2 := if !is_valid
        then [Event.printLine (file ++ " is NOT valid.")] else []
      (ld ++ ev1 ++ ev2 ++ [Event.printLine (file ++ " is valid.")], some ())
  else if strContains file "-bond.toml" && can_apply_for_bonds then
    let bonds_toml := parse file
    let ev1 := if bonds_toml.isNone
      then [Event.printLine (file ++ " is NOT valid.")] else []
    match check_if_bond_is_valid bech32_decode bonds_toml nam_balances with
    | none => (ld ++ ev1, none)
    | some is_valid =>
      let ev2 := if !is_valid
        then [Event.printLine (file ++ " is NOT valid.")] else []
      (ld ++ ev1 ++ ev2 ++ [Event.printLine (file ++ " is valid.")], some ())
  else (ld, some ())

/-- The dispatch loop of `main` (lines 199-214), restricted to candidate
files that survive the pattern and alias gates and the scripts/yml skip:
each remaining file is handed to `validate_toml`; an exception escaping a
call aborts the whole run (`false`). -/
def run_validation (bech32_decode : String → Option String)
    (nam_balances : List (String × PyNum)) (parse : String → Option TomlDoc)
    (can_apply_for_validators can_apply_for_bonds can_apply_for_accounts : Bool) :
    List String → List Event × Bool
  | [] => ([], true)
  | f :: fs =>
    match validate_toml bech32_decode nam_balances parse f
        can_apply_for_validators can_apply_for_bonds can_apply_for_accounts with
    | (ev, none) => (ev, false)
    | (ev, some _) =>
      let rest := run_validation bech32_decode nam_balances parse
        can_apply_for_validators can_apply_for_bonds can_apply_for_accounts fs
      (ev ++ rest.1, rest.2)

/-! ## Concrete fixtures used by counterexamples and witnesses -/

/-- A decoder fixture: the HRP table of the concrete addresses used in
witnesses (any other string fails to decode). -/
def decodeFix : String → Option String := fun s =>
  if s == "tkpnam1abc" then some "tkpnam"
  else if s == "tnam1xyz" then some "tnam"
  else if s == "tnam1pk" then some "tnam"
  else none

/-- A key slot with both required sub-keys present. -/
def goodSlot : KeySlot := ⟨true, true⟩

/-- A validator entry that is valid except possibly for the two
commission-rate fields, which are supplied. -/
def validatorEntryWith (cr mcrc : PyNum) : ValidatorEntry :=
  ⟨some goodSlot, some goodSlot, some goodSlot, some goodSlot, some goodSlot,
   some ⟨some "a@b.c"⟩, some ["sig"], some "tnam1xyz", some "vp_user",
   some cr, some mcrc⟩

/-- A validator record file around `validatorEntryWith`: empty (hence
valid) established_account array, no bond key. -/
def validatorDocWith (cr mcrc : PyNum) : TomlDoc :=
  ⟨some [], some [validatorEntryWith cr mcrc], none⟩

/-- An account record file with one entry lacking the `vp` field. -/
def badAccountDoc : TomlDoc := ⟨some [⟨none, some 1, some []⟩], none, none⟩

/-! ## Claims -/

/-- C1: the claim says a file on a matching, enabled track whose TOML fails
to load is reported Invalid without invoking the validator and without an
exception escaping.  The code does print the NOT-valid line, but (missing
`return`, line 166) then passes the `None` parse result to the validator:
subscripting `None` raises `TypeError`, which escapes `validate_toml`
(result `none`) and kills the run. -/
theorem c1_malformed_file_crashes :
    validate_toml decodeFix [] (fun _ => none)
      "transactions/alice-account.toml" true true true
      = ([Event.loadBalances,
          Event.printLine "transactions/alice-account.toml is NOT valid."],
         none) := rfl

/-- C2: the claim says each processed file yields exactly one output line.
On a well-formed account file that fails validation, the code prints the
NOT-valid line and then (line 187 is unconditional) also prints the
valid line: two contradictory lines for one file. -/
theorem c2_invalid_file_prints_two_lines :
    validate_toml decodeFix [] (fun _ => some badAccountDoc)
      "transactions/alice-account.toml" true true true
      = ([Event.loadBalances,
          Event.printLine "transactions/alice-account.toml is NOT valid.",
          Event.printLine "transactions/alice-account.toml is valid."],
         some ()) := rfl

/-- C6: commissionRate and maxCommissionRateChange are constrained to the
closed interval [0,1] with exact boundaries: on an otherwise valid
validator record, the value 1 passes for both fields, while 1.0001 and
-0.0001 fail, for each field independently. -/
theorem c6_commission_rate_boundaries :
    check_if_validator_is_valid decodeFix
      (some (validatorDocWith (some 1) (some 1))) = some true
  ∧ check_if_validator_is_valid decodeFix
      (some (validatorDocWith (some (mkRat 10001 10000)) (some 1))) = some false
  ∧ check_if_validator_is_valid decodeFix
      (some (validatorDocWith (some (mkRat (-1) 10000)) (some 1))) = some false
  ∧ check_if_validator_is_valid decodeFix
      (some (validatorDocWith (some 1) (some (mkRat 10001 10000)))) = some false
  ∧ check_if_validator_is_valid decodeFix
      (some (validatorDocWith (some 1) (some (mkRat (-1) 10000)))) = some false :=
  ⟨rfl, by decide, by decide, by decide, by decide⟩

/-- C3 counterexample: a structurally complete validator record whose
commission_rate does not parse as a decimal makes the validator raise
(the unguarded `float` call at line 104), not return false. -/
theorem c3_unparseable_rate_cex :
    check_if_validator_is_valid decodeFix
      (some ⟨some [], some [validatorEntryWith none (some 1)], none⟩) = none
    ∧ (none : Option Bool) ≠ some false := ⟨rfl, by decide⟩

/-- C3 amended: on an entry whose required fields and sub-fields are all
present with non-empty signatures, an unparseable commissionRate,
maxCommissionRateChange, or bond amount makes the respective check raise
(the `ValueError` from `float` propagates, result `none`), rather than
return false. -/
theorem c3_unparseable_decimal_raises :
    (∀ (bech32_decode : String → Option String) (email : String)
        (signatures : List String) (address vp : String) (mcrc : PyNum),
      signatures ≠ [] →
      check_validator_entry bech32_decode
        ⟨some ⟨true, true⟩, some ⟨true, true⟩, some ⟨true, true⟩,
         some ⟨true, true⟩, some ⟨true, true⟩, some ⟨some email⟩,
         some signatures, some address, some vp, some none, some mcrc⟩ = none)
  ∧ (∀ (bech32_decode : String → Option String) (email : String)
        (signatures : List String) (address vp : String) (q : ℚ),
      signatures ≠ [] →
      check_validator_entry bech32_decode
        ⟨some ⟨true, true⟩, some ⟨true, true⟩, some ⟨true, true⟩,
         some ⟨true, true⟩, some ⟨true, true⟩, some ⟨some email⟩,
         some signatures, some address, some vp, some (some q), some none⟩ = none)
  ∧ (∀ (bech32_decode : String → Option String)
        (balances : List (String × PyNum)) (source validator : String)
        (signatures : List String),
      signatures ≠ [] →
      check_bond_entry bech32_decode balances
        ⟨some source, some validator, some none, some signatures⟩ = none) := by
  refine ⟨?_, ?_, ?_⟩
  · intro bech32_decode email signatures address vp mcrc h
    cases signatures with
    | nil => exact absurd rfl h
    | cons a as => rfl
  · intro bech32_decode email signatures address vp q h
    cases signatures with
    | nil => exact absurd rfl h
    | cons a as => rfl
  · intro bech32_decode balances source validator signatures h
    cases signatures with
    | nil => exact absurd rfl h
    | cons a as => rfl

/-- C3 witness: the amended statement at concrete entries. -/
theorem c3_unparseable_decimal_raises_witness :
    check_validator_entry decodeFix (validatorEntryWith none (some 1)) = none
  ∧ check_validator_entry decodeFix (validatorEntryWith (some 1) none) = none
  ∧ check_bond_entry decodeFix []
      ⟨some "tkpnam1abc", some "tnam1xyz", some none, some ["sig"]⟩ = none :=
  ⟨c3_unparseable_decimal_raises.1 decodeFix "a@b.c" ["sig"] "tnam1xyz" "vp_user"
      (some 1) (by decide),
   c3_unparseable_decimal_raises.2.1 decodeFix "a@b.c" ["sig"] "tnam1xyz" "vp_user"
      1 (by decide),
   c3_unparseable_decimal_raises.2.2 decodeFix [] "tkpnam1abc" "tnam1xyz" ["sig"]
      (by decide)⟩

/-- C7 counterexample: a record carrying a bond key but lacking the
established_account key makes the validator raise (`KeyError` inside the
account-shape scan, which runs before the bond-key check), instead of
returning false. -/
theorem c7_bond_key_without_account_key_cex :
    check_if_validator_is_valid decodeFix (some ⟨none, some [], some []⟩) = none
    ∧ (none : Option Bool) ≠ some false := ⟨rfl, by decide⟩

/-- C7 amended: every validator record that carries an established_account
key (so the account-shape scan does not raise) and a top-level bond key is
rejected, regardless of the validity of its other fields. -/
theorem c7_bond_key_rejected
    (bech32_decode : String → Option String) (doc : TomlDoc)
    (es : List AccountEntry) (hes : doc.established_account = some es)
    (hb : doc.bond.isSome = true) :
    check_if_validator_is_valid bech32_decode (some doc) = some false := by
  obtain ⟨ea, va, bd⟩ := doc
  obtain rfl : ea = some es := hes
  simp only [check_if_validator_is_valid, check_if_account_is_valid]
  cases h : es.all (check_account_entry bech32_decode) <;> simp [h, hb]

/-- C7 witness: the amended statement at a concrete record. -/
theorem c7_bond_key_rejected_witness :
    check_if_validator_is_valid decodeFix (some ⟨some [], none, some []⟩)
      = some false :=
  c7_bond_key_rejected decodeFix ⟨some [], none, some []⟩ [] rfl rfl

/-- C4: every account record all of whose established_account entries have
the three required fields, vp equal to "vp_user", an integer threshold
between 1 and the number of public keys, and all public keys decoding with
HRP "tnam", is accepted by check_if_account_is_valid. -/
theorem c4_wellformed_accounts_valid
    (bech32_decode : String → Option String)
    (accounts : List AccountEntry) (va : Option (List ValidatorEntry))
    (bd : Option (List BondEntry))
    (h : ∀ a ∈ accounts, ∃ t pks, a.vp = some "vp_user" ∧
      a.threshold = some t ∧ a.public_keys = some pks ∧
      1 ≤ t ∧ t ≤ (pks.length : Int) ∧
      ∀ pk ∈ pks, bech32_decode pk = some "tnam") :
    check_if_account_is_valid bech32_decode (some ⟨some accounts, va, bd⟩)
      = some true := by
  simp only [check_if_account_is_valid, Option.some.injEq]
  rw [List.all_eq_true]
  intro a ha
  obtain ⟨t, pks, hvp, ht, hpks, h1, h2, hdec⟩ := h a ha
  have hnlt : ¬((pks.length : Int) < t) := not_lt.mpr h2
  have hnle : ¬(t ≤ 0) := by omega
  simp [check_account_entry, hvp, ht, hpks, hnlt, hnle, List.all_eq_true]
  intro pk hpk
  simp [hdec pk hpk]

/-- C4 witness: a concrete well-formed account record is accepted. -/
theorem c4_wellformed_accounts_valid_witness :
    check_if_account_is_valid decodeFix
      (some ⟨some [⟨some "vp_user", some 1, some ["tnam1pk"]⟩], none, none⟩)
      = some true := by
  apply c4_wellformed_accounts_valid
  intro a ha
  simp only [List.mem_singleton] at ha
  subst ha
  refine ⟨1, ["tnam1pk"], rfl, rfl, rfl, le_refl 1, by decide, ?_⟩
  intro pk hpk
  simp only [List.mem_singleton] at hpk
  subst hpk
  rfl

/-- C8: permuting the established_account entries of an account record
does not change the verdict of check_if_account_is_valid. -/
theorem c8_account_order_irrelevant
    (bech32_decode : String → Option String)
    (es es2 : List AccountEntry) (h : es.Perm es2)
    (va : Option (List ValidatorEntry)) (bd : Option (List BondEntry)) :
    check_if_account_is_valid bech32_decode (some ⟨some es, va, bd⟩)
      = check_if_account_is_valid bech32_decode (some ⟨some es2, va, bd⟩) := by
  simp only [check_if_account_is_valid, Option.some.injEq]
  rw [Bool.eq_iff_iff, List.all_eq_true, List.all_eq_true]
  exact ⟨fun H a ha => H a (h.mem_iff.mpr ha), fun H a ha => H a (h.mem_iff.mp ha)⟩

/-- C8 witness: swapping two concrete entries leaves the verdict equal. -/
theorem c8_account_order_irrelevant_witness :
    check_if_account_is_valid decodeFix
      (some ⟨some [⟨some "vp_user", some 1, some ["tnam1pk"]⟩,
                   ⟨none, some 1, some []⟩], none, none⟩)
      = check_if_account_is_valid decodeFix
        (some ⟨some [⟨none, some 1, some []⟩,
                     ⟨some "vp_user", some 1, some ["tnam1pk"]⟩], none, none⟩) :=
  c8_account_order_irrelevant decodeFix _ _
    (List.Perm.swap ⟨none, some 1, some []⟩
      ⟨some "vp_user", some 1, some ["tnam1pk"]⟩ []) none none

/-- Unfolding of the bond-entry check when all four fields are present and
the signatures list is non-empty: what remains is the amount conversion,
the balance check, and the two address checks, in source order. -/
theorem check_bond_entry_cons
    (bech32_decode : String → Option String)
    (balances : List (String × PyNum)) (source validator : String)
    (amount : ℚ) (a : String) (as' : List String) :
    check_bond_entry bech32_decode balances
      ⟨some source, some validator, some (some amount), some (a :: as')⟩
      = match bondBalance balances source with
        | none => none
        | some balance =>
          if balance = 0 ∨ ¬balance ≥ amount then some false
          else if bech32_decode source ≠ some "tkpnam" then some false
          else if bech32_decode validator ≠ some "tnam" then some false
          else some true := rfl

/-- C5: for a bond entry with the four fields present, non-empty
signatures, and a parseable amount: the balance used is the recorded one
when the source is present in the table and 0 otherwise; the entry is
rejected at the balance check exactly when that balance is 0 or below the
amount, and otherwise the verdict is exactly the address-prefix verdict. -/
theorem c5_bond_balance_check
    (bech32_decode : String → Option String)
    (balances : List (String × PyNum)) (source validator : String)
    (signatures : List String) (amount balance : ℚ)
    (hs : signatures ≠ [])
    (hb : bondBalance balances source = some balance) :
    (∀ v, balances.lookup source = some v → bondBalance balances source = v)
  ∧ (balances.lookup source = none → bondBalance balances source = some 0)
  ∧ ((balance = 0 ∨ balance < amount) →
      check_bond_entry bech32_decode balances
        ⟨some source, some validator, some (some amount), some signatures⟩
        = some false)
  ∧ (¬(balance = 0 ∨ balance < amount) →
      check_bond_entry bech32_decode balances
        ⟨some source, some validator, some (some amount), some signatures⟩
        = some (decide (bech32_decode source = some "tkpnam")
            && decide (bech32_decode validator = some "tnam"))) := by
  refine ⟨?_, ?_, ?_, ?_⟩
  · intro v hv; simp [bondBalance, hv]
  · intro hv; simp [bondBalance, hv]
  · intro hrej
    cases signatures with
    | nil => exact absurd rfl hs
    | cons a as =>
      simp only [check_bond_entry_cons, hb]
      rw [if_pos]
      rcases hrej with h0 | hlt
      · exact Or.inl h0
      · exact Or.inr (not_le.mpr hlt)
  · intro hok
    push_neg at hok
    obtain ⟨h0, hge⟩ := hok
    cases signatures with
    | nil => exact absurd rfl hs
    | cons a as =>
      simp only [check_bond_entry_cons, hb]
      rw [if_neg]
      · by_cases hsrc : bech32_decode source = some "tkpnam" <;>
          by_cases hval : bech32_decode validator = some "tnam" <;>
          simp [hsrc, hval]
      · rintro (hc | hc)
        · exact h0 hc
        · exact hc hge

/-- C5 witness: a bond of amount equal to the positive recorded balance
passes; a bond of amount 0 against an absent source is rejected. -/
theorem c5_bond_balance_check_witness :
    check_bond_entry decodeFix [("tkpnam1abc", some 100)]
      ⟨some "tkpnam1abc", some "tnam1xyz", some (some 100), some ["sig"]⟩
      = some true
  ∧ check_bond_entry decodeFix []
      ⟨some "tkpnam1abc", some "tnam1xyz", some (some 0), some ["sig"]⟩
      = some false := by
  constructor
  · have h := (c5_bond_balance_check decodeFix [("tkpnam1abc", some 100)]
      "tkpnam1abc" "tnam1xyz" ["sig"] 100 100 (by decide) rfl).2.2.2
    rw [h (by norm_num)]
    rfl
  · have h := (c5_bond_balance_check decodeFix []
      "tkpnam1abc" "tnam1xyz" ["sig"] 0 0 (by decide) rfl).2.2.1
    exact h (Or.inl rfl)

/-- C10: the bond validator imposes no lower bound on the amount: a bond
entry with all four fields, non-empty signatures, addresses decoding with
the expected prefixes, a positive recorded source balance, and a negative
amount is accepted. -/
theorem c10_negative_amount_accepted
    (bech32_decode : String → Option String)
    (balances : List (String × PyNum)) (source validator : String)
    (signatures : List String) (amount balance : ℚ)
    (ea : Option (List AccountEntry)) (va : Option (List ValidatorEntry))
    (hs : signatures ≠ [])
    (hlk : balances.lookup source = some (some balance))
    (hpos : 0 < balance) (hneg : amount < 0)
    (hsrc : bech32_decode source = some "tkpnam")
    (hval : bech32_decode validator = some "tnam") :
    check_if_bond_is_valid bech32_decode
      (some ⟨ea, va, some [⟨some source, some validator,
        some (some amount), some signatures⟩]⟩) balances = some true := by
  cases signatures with
  | nil => exact absurd rfl hs
  | cons a as =>
    have hbal : bondBalance balances source = some balance := by
      simp [bondBalance, hlk]
    have h1 : ¬(balance = 0 ∨ ¬balance ≥ amount) := by
      rintro (hc | hc)
      · exact absurd hc (ne_of_gt hpos)
      · exact hc (le_of_lt (hneg.trans hpos))
    have hent : check_bond_entry bech32_decode balances
        ⟨some source, some validator, some (some amount), some (a :: as)⟩
        = some true := by
      simp only [check_bond_entry_cons, hbal]
      rw [if_neg h1, if_neg (fun hc => hc hsrc), if_neg (fun hc => hc hval)]
    show allEntries (check_bond_entry bech32_decode balances)
      [⟨some source, some validator, some (some amount), some (a :: as)⟩]
      = some true
    simp [allEntries, hent]

/-- C10 witness: a concrete bond of amount -5 against balance 100. -/
theorem c10_negative_amount_accepted_witness :
    check_if_bond_is_valid decodeFix
      (some ⟨none, none, some [⟨some "tkpnam1abc", some "tnam1xyz",
        some (some (-5)), some ["sig"]⟩]⟩)
      [("tkpnam1abc", some 100)] = some true :=
  c10_negative_amount_accepted decodeFix [("tkpnam1abc", some 100)]
    "tkpnam1abc" "tnam1xyz" ["sig"] (-5) 100 none none
    (by decide) rfl (by norm_num) (by norm_num) rfl rfl

/-- Every call of validate_toml reads the balances file exactly once: its
event trace contains exactly one loadBalances event, whatever track is
taken and whatever the outcome. -/
theorem validate_toml_loads_once
    (bech32_decode : String → Option String)
    (nam_balances : List (String × PyNum)) (parse : String → Option TomlDoc)
    (file : String) (cv cb ca : Bool) :
    (validate_toml bech32_decode nam_balances parse file cv cb ca).1.count
      Event.loadBalances = 1 := by
  have hq : ∀ s : String, (Event.printLine s == Event.loadBalances) = false :=
    fun s => rfl
  have hp : ∀ (p : Prop) (inst : Decidable p) (s : String),
      List.count Event.loadBalances
        (@ite _ p inst [Event.printLine s] []) = 0 := by
    intro p inst s
    split <;> simp [List.count_cons, List.count_nil, hq]
  unfold validate_toml
  dsimp only
  split
  · split <;>
      simp [List.count_append, List.count_cons, List.count_nil, hp, hq]
  · split
    · split <;>
        simp [List.count_append, List.count_cons, List.count_nil, hp, hq]
    · split
      · split <;>
          simp [List.count_append, List.count_cons, List.count_nil, hp, hq]
      · simp [List.count_cons, List.count_nil]

/-- One step of the dispatch loop, written with projections so that the
trace and the success flag can be reasoned about separately. -/
theorem run_validation_cons
    (bech32_decode : String → Option String)
    (nam_balances : List (String × PyNum)) (parse : String → Option TomlDoc)
    (cv cb ca : Bool) (f : String) (fs : List String) :
    run_validation bech32_decode nam_balances parse cv cb ca (f :: fs)
      = ((validate_toml bech32_decode nam_balances parse f cv cb ca).1 ++
          (if (validate_toml bech32_decode nam_balances parse f cv cb ca).2.isSome
            then (run_validation bech32_decode nam_balances parse cv cb ca fs).1
            else []),
         (validate_toml bech32_decode nam_balances parse f cv cb ca).2.isSome
           && (run_validation bech32_decode nam_balances parse cv cb ca fs).2) := by
  have hstep : run_validation bech32_decode nam_balances parse cv cb ca (f :: fs)
      = match validate_toml bech32_decode nam_balances parse f cv cb ca with
        | (ev, none) => (ev, false)
        | (ev, some _) =>
          (ev ++ (run_validation bech32_decode nam_balances parse cv cb ca fs).1,
           (run_validation bech32_decode nam_balances parse cv cb ca fs).2) := rfl
  rcases h : validate_toml bech32_decode nam_balances parse f cv cb ca with ⟨ev, r⟩
  rw [hstep, h]
  cases r <;> simp

/-- C9 counterexample: a run over two candidate account files reads the
balances file twice — once per candidate file, not once per run. -/
theorem c9_balances_loaded_per_file_cex :
    (run_validation decodeFix [] (fun _ => some ⟨some [], none, none⟩)
      true true true
      ["transactions/a-account.toml", "transactions/b-account.toml"]).1.count
        Event.loadBalances = 2
    ∧ (2 : ℕ) ≠ 1 := ⟨rfl, by decide⟩

/-- C9 amended: the balances file is read once per candidate file handed to
validate_toml (at the start of each call), so a run that terminates
normally performs as many reads as there are candidate files; the table
itself is only ever read, never written. -/
theorem c9_balances_load_count
    (bech32_decode : String → Option String)
    (nam_balances : List (String × PyNum)) (parse : String → Option TomlDoc)
    (cv cb ca : Bool) (files : List String)
    (hok : (run_validation bech32_decode nam_balances parse cv cb ca files).2
      = true) :
    (run_validation bech32_decode nam_balances parse cv cb ca files).1.count
      Event.loadBalances = files.length := by
  induction files with
  | nil => rfl
  | cons f fs ih =>
    rw [run_validation_cons] at hok ⊢
    rw [Bool.and_eq_true] at hok
    obtain ⟨h2, hok2⟩ := hok
    have h1 := validate_toml_loads_once bech32_decode nam_balances parse f cv cb ca
    simp [h2, List.count_append, h1, ih hok2, Nat.add_comm]

/-- C9 witness for the amended claim: a normally terminating one-file run
reads the balances file once. -/
theorem c9_balances_load_count_witness :
    (run_validation decodeFix [] (fun _ => some ⟨some [], none, none⟩)
      true true true ["transactions/a-account.toml"]).1.count
        Event.loadBalances = 1 :=
  c9_balances_load_count decodeFix [] (fun _ => some ⟨some [], none, none⟩)
    true true true ["transactions/a-account.toml"] rfl
